import Mathlib

/-!
Shallow embedding of `calculate_tax_like_tally/overrides/sales_invoice.py`
(the `TallyTaxSalesInvoice.apply_tally_tax_calculation` recalculation engine
and its two rounding helpers), over exact rationals.

Numeric fields of the Python document objects are modelled as `ℚ`; the
"missing field / None coerces to zero" behaviour of `flt(x or 0)` is modelled
by making every numeric field total with the caller supplying `0` where the
Python object would lack the attribute.  The serialized
`item_wise_tax_detail` JSON string is modelled as the association list the
Python code serializes (insertion-ordered, later writes to the same key
overwrite in place), which is faithful because `json.dumps` is injective on
such dictionaries.
-/

namespace CalcTax

/-- A sales-invoice line item: the fields the engine reads
(`item_code`, `amount`, the three rates) and the three per-item tax amount
fields it writes. -/
structure LineItem where
  item_code : String
  amount : ℚ
  cgst_rate : ℚ
  sgst_rate : ℚ
  igst_rate : ℚ
  cgst_amount : ℚ
  sgst_amount : ℚ
  igst_amount : ℚ
deriving DecidableEq

/-- One tax row of the invoice: the classifier inputs (`gst_tax_type`,
`account_head`) and the fields the engine writes. -/
structure TaxRow where
  gst_tax_type : String
  account_head : String
  tax_amount : ℚ
  base_tax_amount : ℚ
  tax_amount_after_discount_amount : ℚ
  base_tax_amount_after_discount_amount : ℚ
  item_wise_tax_detail : List (String × ℚ × ℚ)
  total : ℚ
  base_total : ℚ
deriving DecidableEq

/-- The invoice snapshot: line items, tax rows, the two read-only input
totals and the eight document-level output totals. -/
@[ext]
structure SalesInvoice where
  items : List LineItem
  taxes : List TaxRow
  net_total : ℚ
  base_total : ℚ
  total_taxes_and_charges : ℚ
  base_total_taxes_and_charges : ℚ
  grand_total : ℚ
  base_grand_total : ℚ
  rounding_adjustment : ℚ
  rounded_total : ℚ
  base_rounded_total : ℚ
  outstanding_amount : ℚ
deriving DecidableEq

/-- Mathematical floor of a rational, computed on the reduced fraction
(`Int` division is Euclidean, hence flooring for a positive denominator).
This embeds `frappe.utils.floor`, i.e. Python's `math.floor`. -/
def floorQ (x : ℚ) : ℤ :=
  x.num / x.den

/-- Python's `int(...)` applied to a rational: truncation toward zero. -/
def truncQ (x : ℚ) : ℤ :=
  if 0 ≤ x then floorQ x else -(floorQ (-x))

/-- `TallyTaxSalesInvoice.round_half` (sales_invoice.py lines 189-190):
`float(int(n * multiplier + 0.5)) / multiplier` with `multiplier = 10 ** decimals`. -/
def round_half (n : ℚ) (decimals : ℕ) : ℚ :=
  let multiplier : ℚ := 10 ^ decimals
  ((truncQ (n * multiplier + 1/2) : ℚ)) / multiplier

/-- `TallyTaxSalesInvoice.round_half_up` (sales_invoice.py lines 210-214):
`decimal_part = n - int(n); int(n) + 1 if decimal_part >= 0.5 else int(n)`. -/
def round_half_up (n : ℚ) : ℤ :=
  let decimal_part := n - (truncQ n : ℚ)
  if decimal_part ≥ 1/2 then truncQ n + 1 else truncQ n

/-- The spec's *Half-Up-N(x, n)*: scale x by `10^n`, add `0.5`, truncate to
integer, divide back by `10^n`.  Stated separately from `round_half` so that
the per-item claim can be checked against the spec's own wording. -/
def halfUpN (x : ℚ) (n : ℕ) : ℚ :=
  ((truncQ (x * 10 ^ n + 1/2) : ℚ)) / 10 ^ n

/-- Decidable check that `pre` is a prefix of the second list. -/
def charsLeadWith : List Char → List Char → Bool
  | [], _ => true
  | _ :: _, [] => false
  | a :: as, b :: bs => a = b && charsLeadWith as bs

/-- Decidable check that `needle` occurs as a contiguous run inside the
second list. -/
def charsContain (needle : List Char) : List Char → Bool
  | [] => needle.isEmpty
  | c :: t => charsLeadWith needle (c :: t) || charsContain needle t

/-- Python's `needle in hay` on strings. -/
def strContains (hay needle : String) : Bool :=
  charsContain needle.toList hay.toList

/-- Python's `str.lower()`, character by character (the labels in this
domain are ASCII). -/
def lowerStr (s : String) : String :=
  ⟨s.data.map Char.toLower⟩

/-- The classifier string of a tax row (sales_invoice.py line 109):
`(tax.get('gst_tax_type', "") or tax.get("account_head", "")).lower()`.
An absent/None `gst_tax_type` and the empty string are both falsy in
Python, so the fallback fires exactly when the modelled field is `""`. -/
def classifier (tax : TaxRow) : String :=
  lowerStr (if tax.gst_tax_type = "" then tax.account_head else tax.gst_tax_type)

/-- Python dict assignment `d[k] = v` on an insertion-ordered association
list: overwrite in place when the key is present, append otherwise. -/
def dictInsert (d : List (String × ℚ × ℚ)) (k : String) (v : ℚ × ℚ) :
    List (String × ℚ × ℚ) :=
  match d with
  | [] => [(k, v)]
  | (k0, v0) :: rest =>
      if k0 = k then (k, v) :: rest else (k0, v0) :: dictInsert rest k v

/-- The accumulator of the per-item loop (sales_invoice.py lines 48-87):
the three running totals and the three breakup dictionaries. -/
structure ItemPassState where
  total_cgst : ℚ
  total_sgst : ℚ
  total_igst : ℚ
  cgst_item_wise : List (String × ℚ × ℚ)
  sgst_item_wise : List (String × ℚ × ℚ)
  igst_item_wise : List (String × ℚ × ℚ)
deriving DecidableEq

/-- Initial accumulator: totals `0.0`, empty dictionaries. -/
def initPass : ItemPassState :=
  ⟨0, 0, 0, [], [], []⟩

/-- The per-item loop of `apply_tally_tax_calculation` (lines 58-87):
computes the three rounded candidate amounts, stores them on the item,
records `{item_code: [rate, amount]}` into each breakup dictionary whose
rate is positive, and accumulates the three totals.  Returns the annotated
item list and the final accumulator. -/
def itemLoop : List LineItem → ItemPassState → List LineItem × ItemPassState
  | [], st => ([], st)
  | item :: rest, st =>
      let cgst_amount := round_half (item.amount * item.cgst_rate / 100) 2
      let sgst_amount := round_half (item.amount * item.sgst_rate / 100) 2
      let igst_amount := round_half (item.amount * item.igst_rate / 100) 2
      let item2 : LineItem :=
        { item with
            cgst_amount := cgst_amount
            sgst_amount := sgst_amount
            igst_amount := igst_amount }
      let st2 : ItemPassState :=
        { total_cgst := st.total_cgst + cgst_amount
          total_sgst := st.total_sgst + sgst_amount
          total_igst := st.total_igst + igst_amount
          cgst_item_wise :=
            if item.cgst_rate > 0 then
              dictInsert st.cgst_item_wise item.item_code (item.cgst_rate, cgst_amount)
            else st.cgst_item_wise
          sgst_item_wise :=
            if item.sgst_rate > 0 then
              dictInsert st.sgst_item_wise item.item_code (item.sgst_rate, sgst_amount)
            else st.sgst_item_wise
          igst_item_wise :=
            if item.igst_rate > 0 then
              dictInsert st.igst_item_wise item.item_code (item.igst_rate, igst_amount)
            else st.igst_item_wise }
      let out := itemLoop rest st2
      (item2 :: out.1, out.2)

/-- The four-way tax classification of the `if`/`elif` chain of step 3
(lines 111-136): `"cgst"` → central, else `"sgst"`/`"utgst"` → state, else
`"igst"` → integrated, else unrecognized. -/
inductive TaxType
  | central
  | state
  | integrated
  | unrecognized
deriving DecidableEq

/-- Classification of a tax row: the substring tests of the `if`/`elif`
chain, in source order (first match wins). -/
def classify (tax : TaxRow) : TaxType :=
  let g := classifier tax
  if strContains g "cgst" then TaxType.central
  else if strContains g "sgst" || strContains g "utgst" then TaxType.state
  else if strContains g "igst" then TaxType.integrated
  else TaxType.unrecognized

/-- Step 3 of the engine (lines 107-136): rewrite one tax row according to
the substring classification of its classifier string (the `if`/`elif`
chain is `classify`); rows matching no substring are returned unchanged. -/
def updateTaxRow (st : ItemPassState) (tax : TaxRow) : TaxRow :=
  match classify tax with
  | TaxType.central =>
      { tax with
          tax_amount := st.total_cgst
          base_tax_amount := st.total_cgst
          tax_amount_after_discount_amount := st.total_cgst
          base_tax_amount_after_discount_amount := st.total_cgst
          item_wise_tax_detail := st.cgst_item_wise }
  | TaxType.state =>
      { tax with
          tax_amount := st.total_sgst
          base_tax_amount := st.total_sgst
          tax_amount_after_discount_amount := st.total_sgst
          base_tax_amount_after_discount_amount := st.total_sgst
          item_wise_tax_detail := st.sgst_item_wise }
  | TaxType.integrated =>
      { tax with
          tax_amount := st.total_igst
          base_tax_amount := st.total_igst
          tax_amount_after_discount_amount := st.total_igst
          base_tax_amount_after_discount_amount := st.total_igst
          item_wise_tax_detail := st.igst_item_wise }
  | TaxType.unrecognized => tax

/-- Step 4 of the engine (lines 141-158): the row-count-dependent cumulative
totals.  One row: `total = doc_base_total + total_igst`; two rows:
`doc_base_total + total_cgst` then `doc_base_total + total_cgst + total_sgst`;
any other count: untouched.  `base_total` is set equal to `total`
(`tax.base_total = tax.total`). -/
def assignCumulative (taxes : List TaxRow) (doc_base_total total_cgst total_sgst total_igst : ℚ) :
    List TaxRow :=
  match taxes with
  | [tax] =>
      [{ tax with
          total := doc_base_total + total_igst
          base_total := doc_base_total + total_igst }]
  | [tax1, tax2] =>
      [{ tax1 with
          total := doc_base_total + total_cgst
          base_total := doc_base_total + total_cgst },
       { tax2 with
          total := doc_base_total + total_cgst + total_sgst
          base_total := doc_base_total + total_cgst + total_sgst }]
  | ts => ts

/-- `TallyTaxSalesInvoice.apply_tally_tax_calculation` (lines 36-168). -/
def apply_tally_tax_calculation (inv : SalesInvoice) : SalesInvoice :=
  let pass := itemLoop inv.items initPass
  let st := pass.2
  let total_tax_amount := st.total_cgst + st.total_sgst + st.total_igst
  let doc_net_total := inv.net_total
  let doc_base_total := inv.base_total
  let grand_total := doc_net_total + total_tax_amount
  let base_grand_total := doc_base_total + total_tax_amount
  let decimal_part := base_grand_total - (floorQ base_grand_total : ℚ)
  let base_rounded_total : ℚ :=
    if decimal_part ≥ 1/2 then (floorQ base_grand_total : ℚ) + 1
    else (floorQ base_grand_total : ℚ)
  let base_rounding_adjustment := base_rounded_total - base_grand_total
  let taxes2 := inv.taxes.map (updateTaxRow st)
  let taxes3 := assignCumulative taxes2 doc_base_total st.total_cgst st.total_sgst st.total_igst
  { inv with
      items := pass.1
      taxes := taxes3
      total_taxes_and_charges := total_tax_amount
      base_total_taxes_and_charges := total_tax_amount
      grand_total := grand_total
      base_grand_total := base_grand_total
      rounding_adjustment := base_rounding_adjustment
      rounded_total := (round_half_up grand_total : ℚ)
      base_rounded_total := base_rounded_total
      outstanding_amount := base_rounded_total }

/-- The three GST components, used to state the per-type claims once
instead of three times. -/
inductive GstKind
  | cgst
  | sgst
  | igst
deriving DecidableEq

/-- The rate field of a line item for one GST component. -/
def rateOf : GstKind → LineItem → ℚ
  | GstKind.cgst, it => it.cgst_rate
  | GstKind.sgst, it => it.sgst_rate
  | GstKind.igst, it => it.igst_rate

/-- The per-item amount field of a line item for one GST component. -/
def amountOf : GstKind → LineItem → ℚ
  | GstKind.cgst, it => it.cgst_amount
  | GstKind.sgst, it => it.sgst_amount
  | GstKind.igst, it => it.igst_amount

/-- The breakup dictionary of the accumulator for one GST component. -/
def mapOf : GstKind → ItemPassState → List (String × ℚ × ℚ)
  | GstKind.cgst, st => st.cgst_item_wise
  | GstKind.sgst, st => st.sgst_item_wise
  | GstKind.igst, st => st.igst_item_wise

/-- The running total of the accumulator for one GST component. -/
def totalOf : GstKind → ItemPassState → ℚ
  | GstKind.cgst, st => st.total_cgst
  | GstKind.sgst, st => st.total_sgst
  | GstKind.igst, st => st.total_igst

/-- The rounded candidate tax amount of one item for one GST component:
`round_half(amount * rate / 100, 2)`. -/
def itemTax (k : GstKind) (it : LineItem) : ℚ :=
  round_half (it.amount * rateOf k it / 100) 2

/-- The annotation the per-item loop performs on one line item: store the
three rounded candidate amounts, leave every other field alone. -/
def annotateItem (it : LineItem) : LineItem :=
  { it with
      cgst_amount := itemTax GstKind.cgst it
      sgst_amount := itemTax GstKind.sgst it
      igst_amount := itemTax GstKind.igst it }

/-- The breakup-dictionary accumulation of the per-item loop for one GST
component, isolated from the rest of the loop. -/
def mapFold (k : GstKind) : List LineItem → List (String × ℚ × ℚ) → List (String × ℚ × ℚ)
  | [], m => m
  | it :: rest, m =>
      mapFold k rest
        (if rateOf k it > 0 then dictInsert m it.item_code (rateOf k it, itemTax k it) else m)

/-- The item-pass accumulator of the engine run on an invoice. -/
def enginePass (inv : SalesInvoice) : ItemPassState :=
  (itemLoop inv.items initPass).2

/-- The total tax amount the engine computes:
`total_cgst + total_sgst + total_igst`. -/
def totalTaxOf (inv : SalesInvoice) : ℚ :=
  (enginePass inv).total_cgst + (enginePass inv).total_sgst + (enginePass inv).total_igst

/-- The floor-based half-up-to-integer rule of step 2 of the engine
(lines 98-102), factored out for stating lemmas. -/
def halfUpFloor (x : ℚ) : ℚ :=
  if x - (floorQ x : ℚ) ≥ 1/2 then (floorQ x : ℚ) + 1 else (floorQ x : ℚ)

/-- The spec's *Half-Up-Integer(x)*: `f = x - truncate(x)` (truncation toward
zero); return `truncate(x) + 1` when `f ≥ 0.5`, else `truncate(x)`.  This is
also exactly `round_half_up` of the source. -/
def halfUpInteger (x : ℚ) : ℤ :=
  if x - (truncQ x : ℚ) ≥ 1/2 then truncQ x + 1 else truncQ x

/-- The number of tax rows of a given classification. -/
def rowCount (taxes : List TaxRow) (ty : TaxType) : ℕ :=
  (taxes.filter (fun t => classify t = ty)).length

/-- Fixture: a line item with amount 1000, CGST and SGST at 9 %. -/
def itemA1 : LineItem :=
  ⟨"I1", 1000, 9, 9, 0, 0, 0, 0⟩

/-- Fixture: a line item with amount 200, CGST and SGST at 2.5 %. -/
def itemA2 : LineItem :=
  ⟨"I2", 200, 5/2, 5/2, 0, 0, 0, 0⟩

/-- Fixture: a CGST tax row recognised through its account head. -/
def rowCgst : TaxRow :=
  ⟨"", "Output Tax CGST - K", 0, 0, 0, 0, [], 0, 0⟩

/-- Fixture: an SGST tax row recognised through its account head. -/
def rowSgst : TaxRow :=
  ⟨"", "Output Tax SGST - K", 0, 0, 0, 0, [], 0, 0⟩

/-- Fixture: an IGST tax row recognised through its type tag. -/
def rowIgst : TaxRow :=
  ⟨"igst", "IGST Account", 0, 0, 0, 0, [], 0, 0⟩

/-- Fixture: a tax row whose classifier matches no GST substring, carrying
pre-existing totals. -/
def tdsRow : TaxRow :=
  ⟨"", "TDS Payable", 7, 7, 7, 7, [("X", 1, 7)], 5, 5⟩

/-- Fixture: an intrastate invoice (two items, CGST + SGST rows). -/
def invA : SalesInvoice :=
  ⟨[itemA1, itemA2], [rowCgst, rowSgst], 1200, 1200, 0, 0, 0, 0, 0, 0, 0, 0⟩

/-- Fixture: an interstate invoice (one item, one IGST row). -/
def invB : SalesInvoice :=
  ⟨[⟨"I1", 1000, 0, 0, 9, 0, 0, 0⟩], [rowIgst], 1000, 1000, 0, 0, 0, 0, 0, 0, 0, 0⟩

/-- Fixture: an invoice whose only tax row matches no GST substring. -/
def invC5 : SalesInvoice :=
  ⟨[], [tdsRow], 0, 0, 0, 0, 0, 0, 0, 0, 0, 0⟩

/-- Fixture: an invoice with three tax rows, one of them unrecognised. -/
def invD : SalesInvoice :=
  ⟨[], [rowCgst, rowSgst, tdsRow], 0, 0, 0, 0, 0, 0, 0, 0, 0, 0⟩

/-- Fixture: an invoice with a taxed item but no tax rows at all. -/
def invE : SalesInvoice :=
  ⟨[⟨"I1", 100, 0, 0, 18, 0, 0, 0⟩], [], 100, 100, 0, 0, 0, 0, 0, 0, 0, 0⟩

/-- Fixture: an empty invoice with a negative base total of −10.6. -/
def invF : SalesInvoice :=
  ⟨[], [], 0, -53/5, 0, 0, 0, 0, 0, 0, 0, 0⟩

/-- Fixture: an entirely empty invoice. -/
def invH : SalesInvoice :=
  ⟨[], [], 0, 0, 0, 0, 0, 0, 0, 0, 0, 0⟩

theorem floorQ_eq (x : ℚ) : floorQ x = ⌊x⌋ :=
  Rat.floor_def.symm

theorem truncQ_eq (x : ℚ) : truncQ x = if 0 ≤ x then ⌊x⌋ else ⌈x⌉ := by
  rcases le_or_lt 0 x with h | h
  · simp [truncQ, h, floorQ_eq]
  · simp [truncQ, not_le.mpr h, floorQ_eq, Int.floor_neg]

theorem truncQ_of_nonneg {x : ℚ} (h : 0 ≤ x) : truncQ x = ⌊x⌋ := by
  simp [truncQ_eq, h]

theorem itemLoop_fst (items : List LineItem) (st : ItemPassState) :
    (itemLoop items st).1 = items.map annotateItem := by
  induction items generalizing st with
  | nil => rfl
  | cons it rest ih =>
      simp [itemLoop, annotateItem, itemTax, rateOf, ih]

theorem itemLoop_total_cgst (items : List LineItem) (st : ItemPassState) :
    (itemLoop items st).2.total_cgst =
      st.total_cgst + (items.map (itemTax GstKind.cgst)).sum := by
  induction items generalizing st with
  | nil => simp [itemLoop]
  | cons it rest ih => simp [itemLoop, itemTax, rateOf, ih, add_assoc]

theorem itemLoop_total_sgst (items : List LineItem) (st : ItemPassState) :
    (itemLoop items st).2.total_sgst =
      st.total_sgst + (items.map (itemTax GstKind.sgst)).sum := by
  induction items generalizing st with
  | nil => simp [itemLoop]
  | cons it rest ih => simp [itemLoop, itemTax, rateOf, ih, add_assoc]

theorem itemLoop_total_igst (items : List LineItem) (st : ItemPassState) :
    (itemLoop items st).2.total_igst =
      st.total_igst + (items.map (itemTax GstKind.igst)).sum := by
  induction items generalizing st with
  | nil => simp [itemLoop]
  | cons it rest ih => simp [itemLoop, itemTax, rateOf, ih, add_assoc]

theorem itemLoop_totalOf (k : GstKind) (items : List LineItem) (st : ItemPassState) :
    totalOf k (itemLoop items st).2 = totalOf k st + (items.map (itemTax k)).sum := by
  cases k <;>
    simp [totalOf, itemLoop_total_cgst, itemLoop_total_sgst, itemLoop_total_igst]

theorem itemLoop_map_cgst (items : List LineItem) (st : ItemPassState) :
    (itemLoop items st).2.cgst_item_wise = mapFold GstKind.cgst items st.cgst_item_wise := by
  induction items generalizing st with
  | nil => simp [itemLoop, mapFold]
  | cons it rest ih => simp [itemLoop, mapFold, itemTax, rateOf, ih]

theorem itemLoop_map_sgst (items : List LineItem) (st : ItemPassState) :
    (itemLoop items st).2.sgst_item_wise = mapFold GstKind.sgst items st.sgst_item_wise := by
  induction items generalizing st with
  | nil => simp [itemLoop, mapFold]
  | cons it rest ih => simp [itemLoop, mapFold, itemTax, rateOf, ih]

theorem itemLoop_map_igst (items : List LineItem) (st : ItemPassState) :
    (itemLoop items st).2.igst_item_wise = mapFold GstKind.igst items st.igst_item_wise := by
  induction items generalizing st with
  | nil => simp [itemLoop, mapFold]
  | cons it rest ih => simp [itemLoop, mapFold, itemTax, rateOf, ih]

theorem itemLoop_mapOf (k : GstKind) (items : List LineItem) (st : ItemPassState) :
    mapOf k (itemLoop items st).2 = mapFold k items (mapOf k st) := by
  cases k <;>
    simp [mapOf, itemLoop_map_cgst, itemLoop_map_sgst, itemLoop_map_igst]

theorem dictInsert_of_forall (m : List (String × ℚ × ℚ)) (c : String) (v : ℚ × ℚ)
    (h : ∀ p ∈ m, p.1 ≠ c) : dictInsert m c v = m ++ [(c, v)] := by
  induction m with
  | nil => rfl
  | cons p rest ih =>
      obtain ⟨k0, v0⟩ := p
      have hk : k0 ≠ c := h (k0, v0) (by simp)
      simp only [dictInsert, if_neg hk, List.cons_append, List.cons.injEq, true_and]
      exact ih fun q hq => h q (by simp [hq])

theorem mapFold_mem_iff (k : GstKind) (items : List LineItem)
    (m : List (String × ℚ × ℚ))
    (hnd : (items.map (fun it => it.item_code)).Nodup)
    (hdisj : ∀ p ∈ m, p.1 ∉ items.map (fun it => it.item_code))
    (q : String × ℚ × ℚ) :
    q ∈ mapFold k items m ↔
      q ∈ m ∨ ∃ it ∈ items, rateOf k it > 0 ∧
        q = (it.item_code, rateOf k it, itemTax k it) := by
  induction items generalizing m with
  | nil => simp [mapFold]
  | cons it rest ih =>
      have hnd2 : (rest.map (fun x => x.item_code)).Nodup := by
        simpa using (List.nodup_cons.mp (by simpa using hnd)).2
      have hcode : it.item_code ∉ rest.map (fun x => x.item_code) :=
        (List.nodup_cons.mp (by simpa using hnd)).1
      by_cases hr : rateOf k it > 0
      · have hins : dictInsert m it.item_code (rateOf k it, itemTax k it) =
            m ++ [(it.item_code, rateOf k it, itemTax k it)] :=
          dictInsert_of_forall _ _ _ fun p hp hc => hdisj p hp (by simp [hc])
        have hdisj2 : ∀ p ∈ m ++ [(it.item_code, rateOf k it, itemTax k it)],
            p.1 ∉ rest.map (fun x => x.item_code) := by
          intro p hp
          rcases List.mem_append.mp hp with hpm | hpe
          · intro hmem
            exact hdisj p hpm (by simp [hmem])
          · simp at hpe
            simpa [hpe] using hcode
        rw [show mapFold k (it :: rest) m =
              mapFold k rest
                (if rateOf k it > 0 then
                  dictInsert m it.item_code (rateOf k it, itemTax k it) else m) from rfl,
            if_pos hr, hins, ih _ hnd2 hdisj2]
        simp only [List.mem_append, List.mem_singleton, List.mem_cons]
        constructor
        · rintro ((hm | he) | ⟨x, hx, hxr, hxq⟩)
          · exact Or.inl hm
          · exact Or.inr ⟨it, Or.inl rfl, hr, he.resolve_right (by simp)⟩
          · exact Or.inr ⟨x, Or.inr hx, hxr, hxq⟩
        · rintro (hm | ⟨x, hx | hx, hxr, hxq⟩)
          · exact Or.inl (Or.inl hm)
          · exact Or.inl (Or.inr (Or.inl (by rw [hxq, hx])))
          · exact Or.inr ⟨x, hx, hxr, hxq⟩
      · have hdisj2 : ∀ p ∈ m, p.1 ∉ rest.map (fun x => x.item_code) := by
          intro p hp hmem
          exact hdisj p hp (by simp [hmem])
        rw [show mapFold k (it :: rest) m =
              mapFold k rest
                (if rateOf k it > 0 then
                  dictInsert m it.item_code (rateOf k it, itemTax k it) else m) from rfl,
            if_neg hr, ih _ hnd2 hdisj2]
        simp only [List.mem_cons]
        constructor
        · rintro (hm | ⟨x, hx, hxr, hxq⟩)
          · exact Or.inl hm
          · exact Or.inr ⟨x, Or.inr hx, hxr, hxq⟩
        · rintro (hm | ⟨x, hx | hx, hxr, hxq⟩)
          · exact Or.inl hm
          · exact absurd (hx ▸ hxr) hr
          · exact Or.inr ⟨x, hx, hxr, hxq⟩

theorem updateTaxRow_gst_tax_type (st : ItemPassState) (t : TaxRow) :
    (updateTaxRow st t).gst_tax_type = t.gst_tax_type := by
  cases h : classify t <;> simp [updateTaxRow, h]

theorem updateTaxRow_account_head (st : ItemPassState) (t : TaxRow) :
    (updateTaxRow st t).account_head = t.account_head := by
  cases h : classify t <;> simp [updateTaxRow, h]

theorem updateTaxRow_total (st : ItemPassState) (t : TaxRow) :
    (updateTaxRow st t).total = t.total := by
  cases h : classify t <;> simp [updateTaxRow, h]

theorem updateTaxRow_base_total (st : ItemPassState) (t : TaxRow) :
    (updateTaxRow st t).base_total = t.base_total := by
  cases h : classify t <;> simp [updateTaxRow, h]

theorem classify_updateTaxRow (st : ItemPassState) (t : TaxRow) :
    classify (updateTaxRow st t) = classify t := by
  simp [classify, classifier, updateTaxRow_gst_tax_type, updateTaxRow_account_head]

theorem updateTaxRow_idem (st : ItemPassState) (t : TaxRow) :
    updateTaxRow st (updateTaxRow st t) = updateTaxRow st t := by
  conv_lhs => rw [updateTaxRow]
  rw [classify_updateTaxRow]
  cases h : classify t <;> simp [h, updateTaxRow]

theorem classify_set_totals (t : TaxRow) (x : ℚ) :
    classify { t with total := x, base_total := x } = classify t := rfl

theorem updateTaxRow_set_totals (st : ItemPassState) (t : TaxRow) (x : ℚ) :
    updateTaxRow st { t with total := x, base_total := x } =
      { updateTaxRow st t with total := x, base_total := x } := by
  conv_lhs => rw [updateTaxRow]
  rw [classify_set_totals]
  cases h : classify t <;> simp [h, updateTaxRow]

theorem assignCumulative_of_other_length (l : List TaxRow) (b c s i : ℚ)
    (h1 : l.length ≠ 1) (h2 : l.length ≠ 2) :
    assignCumulative l b c s i = l := by
  rcases l with _ | ⟨t1, _ | ⟨t2, _ | ⟨t3, rest⟩⟩⟩
  · rfl
  · simp at h1
  · simp at h2
  · rfl

theorem assignCumulative_map {α : Type} (l : List TaxRow) (b c s i : ℚ)
    (f : TaxRow → α)
    (hf : ∀ t x, f { t with total := x, base_total := x } = f t) :
    (assignCumulative l b c s i).map f = l.map f := by
  rcases l with _ | ⟨t1, _ | ⟨t2, _ | ⟨t3, rest⟩⟩⟩
  · rfl
  · simp [assignCumulative, hf]
  · simp [assignCumulative, hf]
  · rfl

theorem assignCumulative_length (l : List TaxRow) (b c s i : ℚ) :
    (assignCumulative l b c s i).length = l.length := by
  rcases l with _ | ⟨t1, _ | ⟨t2, _ | ⟨t3, rest⟩⟩⟩ <;> rfl

theorem assignCumulative_idem (l : List TaxRow) (b c s i : ℚ) :
    assignCumulative (assignCumulative l b c s i) b c s i =
      assignCumulative l b c s i := by
  rcases l with _ | ⟨t1, _ | ⟨t2, _ | ⟨t3, rest⟩⟩⟩ <;> rfl

theorem map_updateTaxRow_assignCumulative (st : ItemPassState) (l : List TaxRow)
    (b c s i : ℚ) :
    (assignCumulative l b c s i).map (updateTaxRow st) =
      assignCumulative (l.map (updateTaxRow st)) b c s i := by
  rcases l with _ | ⟨t1, _ | ⟨t2, _ | ⟨t3, rest⟩⟩⟩
  · rfl
  · simp [assignCumulative, updateTaxRow_set_totals]
  · simp [assignCumulative, updateTaxRow_set_totals]
  · rfl

theorem apply_items (inv : SalesInvoice) :
    (apply_tally_tax_calculation inv).items = (itemLoop inv.items initPass).1 := rfl

theorem apply_taxes (inv : SalesInvoice) :
    (apply_tally_tax_calculation inv).taxes =
      assignCumulative (inv.taxes.map (updateTaxRow (enginePass inv)))
        inv.base_total (enginePass inv).total_cgst (enginePass inv).total_sgst
        (enginePass inv).total_igst := rfl

theorem apply_net_total (inv : SalesInvoice) :
    (apply_tally_tax_calculation inv).net_total = inv.net_total := rfl

theorem apply_base_total (inv : SalesInvoice) :
    (apply_tally_tax_calculation inv).base_total = inv.base_total := rfl

theorem apply_total_taxes_and_charges (inv : SalesInvoice) :
    (apply_tally_tax_calculation inv).total_taxes_and_charges = totalTaxOf inv := rfl

theorem apply_base_total_taxes_and_charges (inv : SalesInvoice) :
    (apply_tally_tax_calculation inv).base_total_taxes_and_charges = totalTaxOf inv := rfl

theorem apply_grand_total (inv : SalesInvoice) :
    (apply_tally_tax_calculation inv).grand_total = inv.net_total + totalTaxOf inv := rfl

theorem apply_base_grand_total (inv : SalesInvoice) :
    (apply_tally_tax_calculation inv).base_grand_total =
      inv.base_total + totalTaxOf inv := rfl

theorem apply_base_rounded_total (inv : SalesInvoice) :
    (apply_tally_tax_calculation inv).base_rounded_total =
      halfUpFloor (inv.base_total + totalTaxOf inv) := rfl

theorem apply_rounding_adjustment (inv : SalesInvoice) :
    (apply_tally_tax_calculation inv).rounding_adjustment =
      halfUpFloor (inv.base_total + totalTaxOf inv) -
        (inv.base_total + totalTaxOf inv) := rfl

theorem apply_rounded_total (inv : SalesInvoice) :
    (apply_tally_tax_calculation inv).rounded_total =
      (round_half_up (inv.net_total + totalTaxOf inv) : ℚ) := rfl

theorem apply_outstanding_amount (inv : SalesInvoice) :
    (apply_tally_tax_calculation inv).outstanding_amount =
      halfUpFloor (inv.base_total + totalTaxOf inv) := rfl

theorem annotateItem_idem (it : LineItem) :
    annotateItem (annotateItem it) = annotateItem it := rfl

theorem itemLoop_snd_map (items : List LineItem) (st : ItemPassState) :
    (itemLoop (items.map annotateItem) st).2 = (itemLoop items st).2 := by
  induction items generalizing st with
  | nil => rfl
  | cons it rest ih =>
      simp only [List.map_cons, itemLoop]
      exact ih _

theorem enginePass_apply (inv : SalesInvoice) :
    enginePass (apply_tally_tax_calculation inv) = enginePass inv := by
  unfold enginePass
  rw [apply_items, itemLoop_fst, itemLoop_snd_map]

theorem totalTaxOf_apply (inv : SalesInvoice) :
    totalTaxOf (apply_tally_tax_calculation inv) = totalTaxOf inv := by
  simp [totalTaxOf, enginePass_apply]

theorem apply_idem_items (inv : SalesInvoice) :
    (apply_tally_tax_calculation (apply_tally_tax_calculation inv)).items =
      (apply_tally_tax_calculation inv).items := by
  rw [apply_items, apply_items, itemLoop_fst, itemLoop_fst, List.map_map]
  simp [Function.comp_def, annotateItem_idem]

theorem apply_idem_taxes (inv : SalesInvoice) :
    (apply_tally_tax_calculation (apply_tally_tax_calculation inv)).taxes =
      (apply_tally_tax_calculation inv).taxes := by
  rw [apply_taxes, apply_taxes, enginePass_apply, apply_base_total,
    map_updateTaxRow_assignCumulative, List.map_map]
  have hmap : inv.taxes.map (updateTaxRow (enginePass inv) ∘ updateTaxRow (enginePass inv)) =
      inv.taxes.map (updateTaxRow (enginePass inv)) := by
    simp [Function.comp_def, updateTaxRow_idem]
  rw [hmap, assignCumulative_idem]

theorem apply_idempotent_helper (inv : SalesInvoice) :
    apply_tally_tax_calculation (apply_tally_tax_calculation inv) =
      apply_tally_tax_calculation inv := by
  apply SalesInvoice.ext
  · exact apply_idem_items inv
  · exact apply_idem_taxes inv
  · rw [apply_net_total, apply_net_total]
  · rw [apply_base_total, apply_base_total]
  · rw [apply_total_taxes_and_charges, apply_total_taxes_and_charges, totalTaxOf_apply]
  · rw [apply_base_total_taxes_and_charges, apply_base_total_taxes_and_charges,
      totalTaxOf_apply]
  · rw [apply_grand_total, apply_grand_total, totalTaxOf_apply, apply_net_total]
  · rw [apply_base_grand_total, apply_base_grand_total, totalTaxOf_apply, apply_base_total]
  · rw [apply_rounding_adjustment, apply_rounding_adjustment, totalTaxOf_apply,
      apply_base_total]
  · rw [apply_rounded_total, apply_rounded_total, totalTaxOf_apply, apply_net_total]
  · rw [apply_base_rounded_total, apply_base_rounded_total, totalTaxOf_apply,
      apply_base_total]
  · rw [apply_outstanding_amount, apply_outstanding_amount, totalTaxOf_apply,
      apply_base_total]

theorem floorQ_eval {x : ℚ} {z : ℤ} (h1 : (z : ℚ) ≤ x) (h2 : x < (z : ℚ) + 1) :
    floorQ x = z := by
  rw [floorQ_eq]
  exact Int.floor_eq_iff.mpr ⟨h1, h2⟩

theorem truncQ_eval {x : ℚ} {z : ℤ} (h0 : 0 ≤ x) (h1 : (z : ℚ) ≤ x)
    (h2 : x < (z : ℚ) + 1) : truncQ x = z := by
  simp [truncQ, h0, floorQ_eval h1 h2]

theorem round_half_zero (d : ℕ) : round_half 0 d = 0 := by
  show ((truncQ ((0 : ℚ) * 10 ^ d + 1/2) : ℤ) : ℚ) / 10 ^ d = 0
  rw [zero_mul, zero_add,
    show truncQ ((1 : ℚ)/2) = 0 from
      truncQ_eval (by norm_num) (by norm_num) (by norm_num)]
  simp

theorem round_half_eval {x : ℚ} {z : ℤ} {d : ℕ} (h0 : 0 ≤ x * 10 ^ d + 1/2)
    (h1 : (z : ℚ) ≤ x * 10 ^ d + 1/2) (h2 : x * 10 ^ d + 1/2 < (z : ℚ) + 1) :
    round_half x d = (z : ℚ) / 10 ^ d := by
  show ((truncQ (x * 10 ^ d + 1/2) : ℤ) : ℚ) / 10 ^ d = (z : ℚ) / 10 ^ d
  rw [truncQ_eval h0 h1 h2]

theorem updateTaxRow_central (st : ItemPassState) (t : TaxRow)
    (h : classify t = TaxType.central) :
    updateTaxRow st t =
      { t with
          tax_amount := st.total_cgst
          base_tax_amount := st.total_cgst
          tax_amount_after_discount_amount := st.total_cgst
          base_tax_amount_after_discount_amount := st.total_cgst
          item_wise_tax_detail := st.cgst_item_wise } := by
  simp [updateTaxRow, h]

theorem updateTaxRow_state (st : ItemPassState) (t : TaxRow)
    (h : classify t = TaxType.state) :
    updateTaxRow st t =
      { t with
          tax_amount := st.total_sgst
          base_tax_amount := st.total_sgst
          tax_amount_after_discount_amount := st.total_sgst
          base_tax_amount_after_discount_amount := st.total_sgst
          item_wise_tax_detail := st.sgst_item_wise } := by
  simp [updateTaxRow, h]

theorem updateTaxRow_integrated (st : ItemPassState) (t : TaxRow)
    (h : classify t = TaxType.integrated) :
    updateTaxRow st t =
      { t with
          tax_amount := st.total_igst
          base_tax_amount := st.total_igst
          tax_amount_after_discount_amount := st.total_igst
          base_tax_amount_after_discount_amount := st.total_igst
          item_wise_tax_detail := st.igst_item_wise } := by
  simp [updateTaxRow, h]

theorem updateTaxRow_unrecognized (st : ItemPassState) (t : TaxRow)
    (h : classify t = TaxType.unrecognized) :
    updateTaxRow st t = t := by
  simp [updateTaxRow, h]

theorem rowCount_cons (t : TaxRow) (rest : List TaxRow) (ty : TaxType) :
    rowCount (t :: rest) ty =
      (if classify t = ty then 1 else 0) + rowCount rest ty := by
  by_cases h : classify t = ty
  · simp [rowCount, List.filter_cons, h, Nat.add_comm]
  · simp [rowCount, List.filter_cons, h]

theorem sum_map_updateTaxRow (st : ItemPassState) (l : List TaxRow) :
    ((l.map (updateTaxRow st)).map (fun t => t.tax_amount)).sum =
      st.total_cgst * (rowCount l TaxType.central : ℚ) +
      st.total_sgst * (rowCount l TaxType.state : ℚ) +
      st.total_igst * (rowCount l TaxType.integrated : ℚ) +
      ((l.filter (fun t => classify t = TaxType.unrecognized)).map
        (fun t => t.tax_amount)).sum := by
  induction l with
  | nil => simp [rowCount]
  | cons t rest ih =>
      cases h : classify t
      case central =>
        rw [List.map_cons, List.map_cons, List.sum_cons, ih,
          updateTaxRow_central st t h]
        simp [rowCount_cons, h, List.filter_cons]
        ring
      case state =>
        rw [List.map_cons, List.map_cons, List.sum_cons, ih,
          updateTaxRow_state st t h]
        simp [rowCount_cons, h, List.filter_cons]
        ring
      case integrated =>
        rw [List.map_cons, List.map_cons, List.sum_cons, ih,
          updateTaxRow_integrated st t h]
        simp [rowCount_cons, h, List.filter_cons]
        ring
      case unrecognized =>
        rw [List.map_cons, List.map_cons, List.sum_cons, ih,
          updateTaxRow_unrecognized st t h]
        simp [rowCount_cons, h, List.filter_cons]
        ring

theorem enginePass_total_cgst (inv : SalesInvoice) :
    (enginePass inv).total_cgst = (inv.items.map (itemTax GstKind.cgst)).sum := by
  unfold enginePass
  rw [itemLoop_total_cgst]
  simp [initPass]

theorem enginePass_total_sgst (inv : SalesInvoice) :
    (enginePass inv).total_sgst = (inv.items.map (itemTax GstKind.sgst)).sum := by
  unfold enginePass
  rw [itemLoop_total_sgst]
  simp [initPass]

theorem enginePass_total_igst (inv : SalesInvoice) :
    (enginePass inv).total_igst = (inv.items.map (itemTax GstKind.igst)).sum := by
  unfold enginePass
  rw [itemLoop_total_igst]
  simp [initPass]

theorem halfUpFloor_sub_abs_lt (x : ℚ) : |halfUpFloor x - x| < 1 := by
  have h1 : (⌊x⌋ : ℚ) ≤ x := Int.floor_le x
  have h2 : x < ⌊x⌋ + 1 := Int.lt_floor_add_one x
  unfold halfUpFloor
  rw [floorQ_eq]
  split_ifs with h
  · rw [abs_lt]
    constructor <;> linarith
  · rw [abs_lt]
    constructor <;> linarith

theorem halfUpFloor_eq_halfUpInteger {x : ℚ} (h : 0 ≤ x) :
    halfUpFloor x = ((halfUpInteger x : ℤ) : ℚ) := by
  unfold halfUpFloor halfUpInteger
  rw [truncQ_of_nonneg h, ← floorQ_eq]
  split_ifs <;> push_cast <;> ring

/-- C1: after the engine runs, every line item's `cgst_amount` equals
Half-Up-N(amount * cgst_rate / 100, 2) — where Half-Up-N(x, 2) scales by
`10^2`, adds `0.5`, truncates to integer and divides back — and analogously
`sgst_amount` from `sgst_rate` and `igst_amount` from `igst_rate`. -/
theorem c1_item_amounts_half_up (inv : SalesInvoice) (i : ℕ) (item : LineItem)
    (h : inv.items[i]? = some item) :
    ∃ item2 : LineItem, (apply_tally_tax_calculation inv).items[i]? = some item2 ∧
      item2.cgst_amount = halfUpN (item.amount * item.cgst_rate / 100) 2 ∧
      item2.sgst_amount = halfUpN (item.amount * item.sgst_rate / 100) 2 ∧
      item2.igst_amount = halfUpN (item.amount * item.igst_rate / 100) 2 := by
  refine ⟨annotateItem item, ?_, rfl, rfl, rfl⟩
  rw [apply_items, itemLoop_fst, List.getElem?_map, h]
  rfl

/-- Witness for C1: the first line item of `invA` (amount 1000, CGST 9 %). -/
theorem c1_witness :
    ∃ item2 : LineItem, (apply_tally_tax_calculation invA).items[0]? = some item2 ∧
      item2.cgst_amount = halfUpN (itemA1.amount * itemA1.cgst_rate / 100) 2 ∧
      item2.sgst_amount = halfUpN (itemA1.amount * itemA1.sgst_rate / 100) 2 ∧
      item2.igst_amount = halfUpN (itemA1.amount * itemA1.igst_rate / 100) 2 :=
  c1_item_amounts_half_up invA 0 itemA1 rfl

/-- C2: the cumulative-total assignment depends only on the number of tax
rows — one row gets `base_total + total_igst` regardless of classification,
two rows get `base_total + total_cgst` and
`base_total + total_cgst + total_sgst` by position, and any other row count
leaves every row's `total` unchanged. -/
theorem c2_cumulative_by_row_count (inv : SalesInvoice) :
    (inv.taxes.length = 1 →
      (apply_tally_tax_calculation inv).taxes.map (fun t => t.total) =
        [inv.base_total + (enginePass inv).total_igst]) ∧
    (inv.taxes.length = 2 →
      (apply_tally_tax_calculation inv).taxes.map (fun t => t.total) =
        [inv.base_total + (enginePass inv).total_cgst,
         inv.base_total + (enginePass inv).total_cgst + (enginePass inv).total_sgst]) ∧
    (inv.taxes.length ≠ 1 → inv.taxes.length ≠ 2 →
      (apply_tally_tax_calculation inv).taxes.map (fun t => t.total) =
        inv.taxes.map (fun t => t.total) ∧
      (apply_tally_tax_calculation inv).taxes.map (fun t => t.base_total) =
        inv.taxes.map (fun t => t.base_total)) := by
  refine ⟨fun h => ?_, fun h => ?_, fun h1 h2 => ?_⟩
  · obtain ⟨a, ha⟩ := List.length_eq_one.mp h
    rw [apply_taxes, ha]
    simp [assignCumulative]
  · obtain ⟨a, b, hab⟩ := List.length_eq_two.mp h
    rw [apply_taxes, hab]
    simp [assignCumulative]
  · have l1 : (inv.taxes.map (updateTaxRow (enginePass inv))).length ≠ 1 := by
      rw [List.length_map]; exact h1
    have l2 : (inv.taxes.map (updateTaxRow (enginePass inv))).length ≠ 2 := by
      rw [List.length_map]; exact h2
    constructor
    · rw [apply_taxes, assignCumulative_of_other_length _ _ _ _ _ l1 l2, List.map_map]
      simp [Function.comp_def, updateTaxRow_total]
    · rw [apply_taxes, assignCumulative_of_other_length _ _ _ _ _ l1 l2, List.map_map]
      simp [Function.comp_def, updateTaxRow_base_total]

/-- Witness for C2: the single-row invoice `invB`. -/
theorem c2_witness :
    (apply_tally_tax_calculation invB).taxes.map (fun t => t.total) =
      [invB.base_total + (enginePass invB).total_igst] :=
  (c2_cumulative_by_row_count invB).1 rfl

/-- C3: `total_taxes_and_charges` and `base_total_taxes_and_charges` both
equal the sum of the per-item already-rounded cgst, sgst and igst amounts
(sum-of-rounded), and `grand_total` / `base_grand_total` add that sum to
`net_total` / `base_total`. -/
theorem c3_document_totals (inv : SalesInvoice) :
    (apply_tally_tax_calculation inv).total_taxes_and_charges =
      ((apply_tally_tax_calculation inv).items.map (fun it => it.cgst_amount)).sum +
      ((apply_tally_tax_calculation inv).items.map (fun it => it.sgst_amount)).sum +
      ((apply_tally_tax_calculation inv).items.map (fun it => it.igst_amount)).sum ∧
    (apply_tally_tax_calculation inv).base_total_taxes_and_charges =
      (apply_tally_tax_calculation inv).total_taxes_and_charges ∧
    (apply_tally_tax_calculation inv).grand_total =
      inv.net_total + (apply_tally_tax_calculation inv).total_taxes_and_charges ∧
    (apply_tally_tax_calculation inv).base_grand_total =
      inv.base_total + (apply_tally_tax_calculation inv).total_taxes_and_charges := by
  have hc : ((apply_tally_tax_calculation inv).items.map (fun it => it.cgst_amount)).sum =
      (enginePass inv).total_cgst := by
    rw [apply_items, itemLoop_fst, List.map_map, enginePass_total_cgst]
    rfl
  have hs : ((apply_tally_tax_calculation inv).items.map (fun it => it.sgst_amount)).sum =
      (enginePass inv).total_sgst := by
    rw [apply_items, itemLoop_fst, List.map_map, enginePass_total_sgst]
    rfl
  have hi : ((apply_tally_tax_calculation inv).items.map (fun it => it.igst_amount)).sum =
      (enginePass inv).total_igst := by
    rw [apply_items, itemLoop_fst, List.map_map, enginePass_total_igst]
    rfl
  refine ⟨?_, rfl, rfl, rfl⟩
  rw [apply_total_taxes_and_charges, hc, hs, hi]
  rfl

/-- C7: `rounded_total` is Half-Up-Integer of `grand_total` (truncation
toward zero; `+1` when the fractional part is at least one half), and
`outstanding_amount` equals `base_rounded_total`. -/
theorem c7_rounded_and_outstanding (inv : SalesInvoice) :
    (apply_tally_tax_calculation inv).rounded_total =
      ((halfUpInteger ((apply_tally_tax_calculation inv).grand_total) : ℤ) : ℚ) ∧
    (apply_tally_tax_calculation inv).outstanding_amount =
      (apply_tally_tax_calculation inv).base_rounded_total := by
  constructor
  · rw [apply_rounded_total, apply_grand_total]
    rfl
  · rw [apply_outstanding_amount, apply_base_rounded_total]

/-- C9: the engine is idempotent — applying it to its own output yields
that output unchanged. -/
theorem c9_idempotent (inv : SalesInvoice) :
    apply_tally_tax_calculation (apply_tally_tax_calculation inv) =
      apply_tally_tax_calculation inv :=
  apply_idempotent_helper inv

/-- C10: whenever the cumulative-total step fires (one or two tax rows),
every row of the result has `base_total` equal to `total`. -/
theorem c10_base_total_mirrors_total (inv : SalesInvoice)
    (h : inv.taxes.length = 1 ∨ inv.taxes.length = 2) :
    ∀ t ∈ (apply_tally_tax_calculation inv).taxes, t.base_total = t.total := by
  rw [apply_taxes]
  rcases h with h | h
  · obtain ⟨a, ha⟩ := List.length_eq_one.mp h
    rw [ha]
    intro t ht
    simp [assignCumulative] at ht
    rw [ht]
  · obtain ⟨a, b, hab⟩ := List.length_eq_two.mp h
    rw [hab]
    intro t ht
    simp [assignCumulative] at ht
    rcases ht with ht | ht <;> rw [ht]

/-- Witness for C10: the single-row invoice `invB`. -/
theorem c10_witness :
    (apply_tally_tax_calculation invB).taxes.all
      (fun t => decide (t.base_total = t.total)) = true := by
  rw [List.all_eq_true]
  intro t ht
  exact decide_eq_true (c10_base_total_mirrors_total invB (Or.inl rfl) t ht)

/-- Counterexample to C5 as stated: `invC5` has a single tax row whose
classifier ("tds payable") matches no GST substring, yet the engine
overwrites its `total` (the positional cumulative step fires for row
count 1), so the row is not left entirely untouched. -/
theorem c5_counterexample :
    classify tdsRow = TaxType.unrecognized ∧
    invC5.taxes = [tdsRow] ∧
    (apply_tally_tax_calculation invC5).taxes.map (fun t => t.total) ≠
      [tdsRow.total] := by
  have hcl : classify tdsRow = TaxType.unrecognized := by decide
  refine ⟨hcl, rfl, ?_⟩
  have hmap : (apply_tally_tax_calculation invC5).taxes.map (fun t => t.total) = [0] := by
    rw [apply_taxes]
    have hu2 : updateTaxRow (enginePass invC5) tdsRow = tdsRow :=
      updateTaxRow_unrecognized _ _ hcl
    show (assignCumulative ([tdsRow].map (updateTaxRow (enginePass invC5)))
        invC5.base_total (enginePass invC5).total_cgst (enginePass invC5).total_sgst
        (enginePass invC5).total_igst).map (fun t => t.total) = [0]
    rw [List.map_singleton, hu2]
    simp [assignCumulative, enginePass, itemLoop, initPass, invC5]
  rw [hmap]
  intro hbad
  rw [show tdsRow.total = 5 from rfl] at hbad
  have h05 : (0 : ℚ) = 5 := (List.cons.inj hbad).1
  norm_num at h05

/-- C5 amended: a tax row whose classifier matches none of the GST
substrings keeps its four amount fields and its item-wise detail field in
every case, and is entirely untouched — `total` and `base_total`
included — only when the invoice's tax-row count is neither one nor two
(the positional cumulative step may still overwrite its running totals). -/
theorem c5_unmatched_row_frame (inv : SalesInvoice) (i : ℕ) (t : TaxRow)
    (ht : inv.taxes[i]? = some t) (hu : classify t = TaxType.unrecognized) :
    ∃ t2 : TaxRow, (apply_tally_tax_calculation inv).taxes[i]? = some t2 ∧
      t2.tax_amount = t.tax_amount ∧
      t2.base_tax_amount = t.base_tax_amount ∧
      t2.tax_amount_after_discount_amount = t.tax_amount_after_discount_amount ∧
      t2.base_tax_amount_after_discount_amount =
        t.base_tax_amount_after_discount_amount ∧
      t2.item_wise_tax_detail = t.item_wise_tax_detail ∧
      (inv.taxes.length ≠ 1 → inv.taxes.length ≠ 2 → t2 = t) := by
  have hLi : (inv.taxes.map (updateTaxRow (enginePass inv)))[i]? = some t := by
    rw [List.getElem?_map, ht]
    simp [updateTaxRow_unrecognized _ t hu]
  have hilen : i < inv.taxes.length := (List.getElem?_eq_some_iff.mp ht).1
  have hAlen : i < (assignCumulative (inv.taxes.map (updateTaxRow (enginePass inv)))
      inv.base_total (enginePass inv).total_cgst (enginePass inv).total_sgst
      (enginePass inv).total_igst).length := by
    rw [assignCumulative_length, List.length_map]
    exact hilen
  obtain ⟨t2, ht2⟩ : ∃ t2, (assignCumulative (inv.taxes.map (updateTaxRow (enginePass inv)))
      inv.base_total (enginePass inv).total_cgst (enginePass inv).total_sgst
      (enginePass inv).total_igst)[i]? = some t2 :=
    ⟨_, List.getElem?_eq_getElem hAlen⟩
  have key : ∀ {α : Type} (f : TaxRow → α),
      (∀ r x, f { r with total := x, base_total := x } = f r) → f t2 = f t := by
    intro α f hf
    have hmapf := assignCumulative_map (inv.taxes.map (updateTaxRow (enginePass inv)))
      inv.base_total (enginePass inv).total_cgst (enginePass inv).total_sgst
      (enginePass inv).total_igst f hf
    have hml : ((assignCumulative (inv.taxes.map (updateTaxRow (enginePass inv)))
        inv.base_total (enginePass inv).total_cgst (enginePass inv).total_sgst
        (enginePass inv).total_igst).map f)[i]? = some (f t2) := by
      rw [List.getElem?_map, ht2]
      rfl
    have hmr : ((inv.taxes.map (updateTaxRow (enginePass inv))).map f)[i]? =
        some (f t) := by
      rw [List.getElem?_map, hLi]
      rfl
    rw [hmapf, hmr] at hml
    exact (Option.some.inj hml).symm
  refine ⟨t2, ?_,
    key (fun r => r.tax_amount) (fun _ _ => rfl),
    key (fun r => r.base_tax_amount) (fun _ _ => rfl),
    key (fun r => r.tax_amount_after_discount_amount) (fun _ _ => rfl),
    key (fun r => r.base_tax_amount_after_discount_amount) (fun _ _ => rfl),
    key (fun r => r.item_wise_tax_detail) (fun _ _ => rfl), ?_⟩
  · rw [apply_taxes]
    exact ht2
  · intro h1 h2
    have l1 : (inv.taxes.map (updateTaxRow (enginePass inv))).length ≠ 1 := by
      rw [List.length_map]; exact h1
    have l2 : (inv.taxes.map (updateTaxRow (enginePass inv))).length ≠ 2 := by
      rw [List.length_map]; exact h2
    rw [assignCumulative_of_other_length _ _ _ _ _ l1 l2, hLi] at ht2
    exact (Option.some.inj ht2).symm

/-- Counterexample to C6 as stated: on `invF` (no items,
`base_total = -10.6`) the engine's floor-based rounding gives
`base_rounded_total = -11`, while Half-Up-Integer (truncation toward zero)
of `base_grand_total = -10.6` is `-10`. -/
theorem c6_counterexample :
    (apply_tally_tax_calculation invF).base_rounded_total ≠
      ((halfUpInteger ((apply_tally_tax_calculation invF).base_grand_total) : ℤ) : ℚ) := by
  have harg : invF.base_total + totalTaxOf invF = -53/5 := by
    simp [totalTaxOf, enginePass, itemLoop, initPass, invF]
  have hbg : (apply_tally_tax_calculation invF).base_grand_total = -53/5 := by
    rw [apply_base_grand_total, harg]
  have hfl : floorQ (-53/5 : ℚ) = -11 := floorQ_eval (by norm_num) (by norm_num)
  have htr : truncQ (-53/5 : ℚ) = -10 := by
    have hneg : ¬ (0 : ℚ) ≤ -53/5 := by norm_num
    simp only [truncQ, hneg, if_false]
    rw [show -(-53/5 : ℚ) = 53/5 by norm_num,
      @floorQ_eval (53/5 : ℚ) 10 (by norm_num) (by norm_num)]
  have hbrt : (apply_tally_tax_calculation invF).base_rounded_total = -11 := by
    rw [apply_base_rounded_total, harg]
    unfold halfUpFloor
    rw [hfl, if_neg (by norm_num)]
    norm_num
  have hint : halfUpInteger (-53/5 : ℚ) = -10 := by
    unfold halfUpInteger
    rw [htr, if_neg (by norm_num)]
  rw [hbrt, hbg, hint]
  norm_num

/-- C6 amended: `base_rounded_total` equals Half-Up-Integer of
`base_grand_total` whenever `base_grand_total` is non-negative (the spec's
own scope for the rounding primitives; for negative inputs the code's
floor-based rule can differ); unconditionally, `rounding_adjustment` is
`base_rounded_total - base_grand_total`, its magnitude is strictly below
one unit, and `base_rounded_total` is integer-valued. -/
theorem c6_rounding_adjustment (inv : SalesInvoice) :
    (0 ≤ (apply_tally_tax_calculation inv).base_grand_total →
      (apply_tally_tax_calculation inv).base_rounded_total =
        ((halfUpInteger ((apply_tally_tax_calculation inv).base_grand_total) : ℤ) : ℚ)) ∧
    (apply_tally_tax_calculation inv).rounding_adjustment =
      (apply_tally_tax_calculation inv).base_rounded_total -
        (apply_tally_tax_calculation inv).base_grand_total ∧
    |(apply_tally_tax_calculation inv).rounding_adjustment| < 1 ∧
    ∃ z : ℤ, (apply_tally_tax_calculation inv).base_rounded_total = (z : ℚ) := by
  refine ⟨?_, ?_, ?_, ?_⟩
  · intro h
    rw [apply_base_grand_total] at h ⊢
    rw [apply_base_rounded_total]
    exact halfUpFloor_eq_halfUpInteger h
  · rw [apply_rounding_adjustment, apply_base_rounded_total, apply_base_grand_total]
  · rw [apply_rounding_adjustment]
    exact halfUpFloor_sub_abs_lt _
  · rw [apply_base_rounded_total]
    unfold halfUpFloor
    split_ifs
    · exact ⟨floorQ _ + 1, by push_cast; ring⟩
    · exact ⟨floorQ _, rfl⟩

/-- Witness for C6 amended: the empty invoice `invH`, whose
`base_grand_total` is zero. -/
theorem c6_witness :
    0 ≤ (apply_tally_tax_calculation invH).base_grand_total ∧
    (apply_tally_tax_calculation invH).base_rounded_total =
      ((halfUpInteger ((apply_tally_tax_calculation invH).base_grand_total) : ℤ) : ℚ) := by
  have h0 : 0 ≤ (apply_tally_tax_calculation invH).base_grand_total := by
    rw [apply_base_grand_total]
    simp [totalTaxOf, enginePass, itemLoop, initPass, invH]
  exact ⟨h0, (c6_rounding_adjustment invH).1 h0⟩

/-- Witness for C5 amended: the unrecognised third row of the three-row
invoice `invD`. -/
theorem c5_witness :
    ∃ t2 : TaxRow, (apply_tally_tax_calculation invD).taxes[2]? = some t2 ∧
      t2.tax_amount = tdsRow.tax_amount ∧
      t2.base_tax_amount = tdsRow.base_tax_amount ∧
      t2.tax_amount_after_discount_amount = tdsRow.tax_amount_after_discount_amount ∧
      t2.base_tax_amount_after_discount_amount =
        tdsRow.base_tax_amount_after_discount_amount ∧
      t2.item_wise_tax_detail = tdsRow.item_wise_tax_detail ∧
      (invD.taxes.length ≠ 1 → invD.taxes.length ≠ 2 → t2 = tdsRow) :=
  c5_unmatched_row_frame invD 2 tdsRow rfl (by decide)

/-- C8: with distinct item identifiers, an item contributes the entry
`(identifier, rate, amount)` to a tax type's breakup mapping exactly when
its rate for that type is strictly positive; an item with a non-positive
rate contributes no entry at all under its identifier, yet when the rate is
zero the per-item amount field is still computed and stored as 0. -/
theorem c8_breakup_membership (inv : SalesInvoice)
    (hnd : (inv.items.map (fun it => it.item_code)).Nodup)
    (i : ℕ) (item : LineItem) (h : inv.items[i]? = some item) (k : GstKind) :
    ((item.item_code, rateOf k item, itemTax k item) ∈ mapOf k (enginePass inv) ↔
      rateOf k item > 0) ∧
    (¬ rateOf k item > 0 →
      ∀ r a : ℚ, (item.item_code, r, a) ∉ mapOf k (enginePass inv)) ∧
    (rateOf k item = 0 → ∃ item2 : LineItem,
      (apply_tally_tax_calculation inv).items[i]? = some item2 ∧
        amountOf k item2 = 0) := by
  have hmem : item ∈ inv.items := List.getElem?_mem h
  have hmain : ∀ q : String × ℚ × ℚ, q ∈ mapOf k (enginePass inv) ↔
      ∃ it ∈ inv.items, rateOf k it > 0 ∧
        q = (it.item_code, rateOf k it, itemTax k it) := by
    intro q
    unfold enginePass
    rw [itemLoop_mapOf,
      show mapOf k initPass = [] by cases k <;> rfl,
      mapFold_mem_iff k inv.items [] hnd (by simp) q]
    simp
  refine ⟨⟨?_, ?_⟩, ?_, ?_⟩
  · intro hq
    obtain ⟨it, hit, hr, he⟩ := (hmain _).mp hq
    simp only [Prod.mk.injEq] at he
    have heq : it = item :=
      List.inj_on_of_nodup_map hnd hit hmem he.1.symm
    rw [heq] at hr
    exact hr
  · intro hr
    exact (hmain _).mpr ⟨item, hmem, hr, rfl⟩
  · intro hr r a hq
    obtain ⟨it, hit, hir, he⟩ := (hmain _).mp hq
    simp only [Prod.mk.injEq] at he
    have heq : it = item :=
      List.inj_on_of_nodup_map hnd hit hmem he.1.symm
    rw [heq] at hir
    exact hr hir
  · intro hr0
    refine ⟨annotateItem item, ?_, ?_⟩
    · rw [apply_items, itemLoop_fst, List.getElem?_map, h]
      rfl
    · rw [show amountOf k (annotateItem item) = itemTax k item by cases k <;> rfl]
      unfold itemTax
      rw [hr0, mul_zero, zero_div, round_half_zero]

/-- Witness for C8: the first item of `invA` and the CGST component. -/
theorem c8_witness :
    ((itemA1.item_code, rateOf GstKind.cgst itemA1, itemTax GstKind.cgst itemA1) ∈
        mapOf GstKind.cgst (enginePass invA) ↔ rateOf GstKind.cgst itemA1 > 0) ∧
    (¬ rateOf GstKind.cgst itemA1 > 0 →
      ∀ r a : ℚ, (itemA1.item_code, r, a) ∉ mapOf GstKind.cgst (enginePass invA)) ∧
    (rateOf GstKind.cgst itemA1 = 0 → ∃ item2 : LineItem,
      (apply_tally_tax_calculation invA).items[0]? = some item2 ∧
        amountOf GstKind.cgst item2 = 0) :=
  c8_breakup_membership invA (by decide) 0 itemA1 rfl GstKind.cgst

/-- Counterexample to C4 as stated: `invE` has one item with an 18 % IGST
rate but no tax rows at all, so the rows' `tax_amount`s sum to 0 while
`total_taxes_and_charges` is 18. -/
theorem c4_counterexample :
    ((apply_tally_tax_calculation invE).taxes.map (fun t => t.tax_amount)).sum ≠
      (apply_tally_tax_calculation invE).total_taxes_and_charges := by
  have htot : (apply_tally_tax_calculation invE).total_taxes_and_charges = 18 := by
    rw [apply_total_taxes_and_charges]
    show (enginePass invE).total_cgst + (enginePass invE).total_sgst +
      (enginePass invE).total_igst = 18
    simp [enginePass, itemLoop, initPass, invE, round_half_zero]
    rw [@round_half_eval (18 : ℚ) 1800 2 (by norm_num) (by norm_num) (by norm_num)]
    norm_num
  have htx : (apply_tally_tax_calculation invE).taxes = [] := by
    rw [apply_taxes]
    rfl
  rw [htot, htx]
  norm_num

/-- C4 amended: the sum of the tax rows' `tax_amount` equals
`total_taxes_and_charges` provided each classification appears on at most
one row, no row is unclassified, and any classification with no row has a
zero computed total (in particular the intended one-row interstate and
two-row intrastate configurations). -/
theorem c4_row_sum_invariant (inv : SalesInvoice)
    (hu : rowCount inv.taxes TaxType.unrecognized = 0)
    (hc1 : rowCount inv.taxes TaxType.central ≤ 1)
    (hc0 : rowCount inv.taxes TaxType.central = 0 → (enginePass inv).total_cgst = 0)
    (hs1 : rowCount inv.taxes TaxType.state ≤ 1)
    (hs0 : rowCount inv.taxes TaxType.state = 0 → (enginePass inv).total_sgst = 0)
    (hi1 : rowCount inv.taxes TaxType.integrated ≤ 1)
    (hi0 : rowCount inv.taxes TaxType.integrated = 0 → (enginePass inv).total_igst = 0) :
    ((apply_tally_tax_calculation inv).taxes.map (fun t => t.tax_amount)).sum =
      (apply_tally_tax_calculation inv).total_taxes_and_charges := by
  rw [apply_taxes, apply_total_taxes_and_charges,
    assignCumulative_map _ _ _ _ _ (fun t => t.tax_amount) (fun _ _ => rfl),
    sum_map_updateTaxRow]
  have hUnrec : inv.taxes.filter (fun t => classify t = TaxType.unrecognized) = [] :=
    List.length_eq_zero.mp (by simpa [rowCount] using hu)
  rw [hUnrec]
  have key : ∀ (c : ℚ) (n : ℕ), n ≤ 1 → (n = 0 → c = 0) → c * (n : ℚ) = c := by
    intro c n hn h0
    rcases Nat.le_one_iff_eq_zero_or_eq_one.mp hn with h | h
    · rw [h0 h, h]
      simp
    · rw [h]
      simp
  rw [key _ _ hc1 hc0, key _ _ hs1 hs0, key _ _ hi1 hi0]
  simp [totalTaxOf]

/-- Witness for C4 amended: the two-row intrastate invoice `invA`. -/
theorem c4_witness :
    ((apply_tally_tax_calculation invA).taxes.map (fun t => t.tax_amount)).sum =
      (apply_tally_tax_calculation invA).total_taxes_and_charges :=
  c4_row_sum_invariant invA (by decide) (by decide)
    (fun hfalse => absurd hfalse (by decide)) (by decide)
    (fun hfalse => absurd hfalse (by decide)) (by decide)
    (fun _ => by
      simp [enginePass, itemLoop, initPass, invA, itemA1, itemA2, round_half_zero])

end CalcTax
